import Mathlib

/-!
Verification of the Face_Enhancer_Tool repository (two Python source files:
`inference_face_enhancer.py` and `rp_handler.py`) against its natural-language
specification.  The Python code is shallowly embedded: pure fragments become
Lean functions, external effects (cv2, requests, tempfile, ffmpeg, the
filesystem) become explicit oracle parameters, and Python exceptions become
`Except String` values.  All definitions are translated from the source files;
line references point into the source.
-/

namespace FET

/-- A video frame.  Frames are opaque raster buffers in the source (numpy
arrays); their contents are irrelevant to the control flow being verified, so
a frame is modelled as an abstract value.  `frame.copy()` in Python produces
an equal value, and values in the embedding are immutable, so copying is the
identity. -/
abbrev Frame := Nat

/-- Type of the identity-selection capability
(`MockFaceID.get_final_image(original, enhanced, reference)` in
`inference_face_enhancer.py` lines 38-39); a call may raise, modelled by
`Except`. -/
abbrev FaceIdFn := Frame → Frame → Frame → Except String Frame

/-- Body of the per-frame `try/except` in `main`
(`inference_face_enhancer.py` lines 153-168):

    try:
        original_frame = frame.copy()
        enhanced_frame = enhancer.enhance(frame)
        if faceid_model:
            enhanced_frame = faceid_model.get_final_image(original_frame, enhanced_frame, original_frame)
        processed_frames += 1
    except Exception as e:
        enhanced_frame = frame
    out.write(enhanced_frame)

Returns the frame written by `out.write` together with whether
`processed_frames` was incremented for this iteration (the increment is the
last statement of the `try` block, so any raise inside the block skips it). -/
def processFrame (enhance : Frame → Except String Frame) (faceid : Option FaceIdFn)
    (frame : Frame) : Frame × Bool :=
  match enhance frame with
  | .error _ => (frame, false)
  | .ok enhanced =>
    match faceid with
    | none => (enhanced, true)
    | some sel =>
      match sel frame enhanced frame with
      | .error _ => (frame, false)
      | .ok finalFrame => (finalFrame, true)

/-- The frame loop of `main` (`inference_face_enhancer.py` lines 146-168):

    processed_frames = 0
    for frame_idx in tqdm(range(frame_count), ...):
        ret, frame = video_stream.read()
        if not ret:
            break
        <processFrame body>

The first argument of `enhance` is the loop index `frame_idx`: the enhancer
is an external capability and each invocation may behave differently, so the
oracle is indexed by the invocation.  The input stream is the list of frames
`video_stream.read()` yields in order; an exhausted stream makes `read` fail
(`ret` false) and the loop break.  Returns (frames written in order,
final value of `processed_frames`). -/
def enhanceLoop (enhance : Nat → Frame → Except String Frame) (faceid : Option FaceIdFn) :
    Nat → Nat → List Frame → List Frame × Nat
  | 0, _, _ => ([], 0)
  | _ + 1, _, [] => ([], 0)
  | n + 1, idx, f :: rest =>
    let step := processFrame (enhance idx) faceid f
    let r := enhanceLoop enhance faceid n (idx + 1) rest
    (step.1 :: r.1, (if step.2 then 1 else 0) + r.2)

/-- The frame loop as entered by `main`: `frame_idx` starts at 0 and the loop
runs for `frame_count` iterations (`inference_face_enhancer.py` line 147). -/
def runEnhanceLoop (enhance : Nat → Frame → Except String Frame) (faceid : Option FaceIdFn)
    (frameCount : Nat) (stream : List Frame) : List Frame × Nat :=
  enhanceLoop enhance faceid frameCount 0 stream

/-- Closed form of `enhanceLoop` when the iteration budget equals the stream
length: every iteration reads one frame, and the written frame and the
processed-count contribution of iteration `i` are those of `processFrame` on
the `i`-th frame. -/
theorem enhanceLoop_spec (e : Nat → Frame → Except String Frame) (fa : Option FaceIdFn) :
    ∀ (s : List Frame) (idx : Nat),
      enhanceLoop e fa s.length idx s =
        ((s.enumFrom idx).map fun p => (processFrame (e p.1) fa p.2).1,
         ((s.enumFrom idx).map fun p => if (processFrame (e p.1) fa p.2).2 then 1 else 0).sum)
  | [], idx => by simp [enhanceLoop]
  | f :: rest, idx => by
    rw [List.length_cons]
    simp only [enhanceLoop, enhanceLoop_spec e fa rest (idx + 1), List.enumFrom_cons,
      List.map_cons, List.sum_cons]

/-- Summing an indicator that is 0 exactly at one index `k < N` over
`0, ..., N-1` gives `N - 1`. -/
theorem sum_map_ite_ne (k : Nat) : ∀ N : Nat, k < N →
    (((List.range N).map fun i => if i = k then (0 : Nat) else 1).sum) = N - 1 := by
  intro N
  induction N with
  | zero => intro h; exact absurd h (Nat.not_lt_zero k)
  | succ n ih =>
    intro hk
    rw [List.range_succ, List.map_append, List.sum_append]
    by_cases h : k < n
    · rw [ih h]
      have hne : n ≠ k := by omega
      simp only [List.map_cons, List.map_nil, List.sum_cons, List.sum_nil, if_neg hne]
      omega
    · have hkn : k = n := by omega
      subst hkn
      have hall : ((List.range k).map fun i => if i = k then (0 : Nat) else 1) =
          (List.range k).map fun _ => (1 : Nat) := by
        apply List.map_congr_left
        intro a ha
        exact if_neg (Nat.ne_of_lt (List.mem_range.mp ha))
      rw [hall]
      simp

/-- Claim C2: for an input whose metadata frame count equals the number of
readable frames, the loop writes exactly one frame per input frame (so exactly
N frames), the k-th written frame is determined by the k-th read frame (order
preservation), and when every transform invocation raises, the written frames
are exactly the original frames in order. -/
theorem enhanceLoop_writes_all_frames (enhance : Nat → Frame → Except String Frame)
    (faceid : Option FaceIdFn) (N : Nat) (stream : List Frame) (hN : N = stream.length) :
    (runEnhanceLoop enhance faceid N stream).1.length = stream.length ∧
    (∀ k : Nat, (runEnhanceLoop enhance faceid N stream).1[k]? =
      (stream[k]?).map fun f => (processFrame (enhance k) faceid f).1) ∧
    ((∀ i f, ∃ m, enhance i f = .error m) →
      (runEnhanceLoop enhance faceid N stream).1 = stream) := by
  subst hN
  unfold runEnhanceLoop
  rw [enhanceLoop_spec]
  refine ⟨by simp, ?_, ?_⟩
  · intro k
    rw [List.getElem?_map, List.getElem?_enumFrom, Option.map_map]
    cases stream[k]? <;> simp [Function.comp]
  · intro hfail
    have hcg : ∀ p ∈ stream.enumFrom 0, (processFrame (enhance p.1) faceid p.2).1 = p.2 := by
      intro p _
      obtain ⟨m, hm⟩ := hfail p.1 p.2
      simp [processFrame, hm]
    rw [List.map_congr_left hcg]
    exact List.enumFrom_map_snd 0 stream

/-- Witness for `enhanceLoop_writes_all_frames` at a concrete two-frame video
with an always-failing transform. -/
theorem enhanceLoop_writes_all_frames_witness :
    (2 = [10, 20].length ∧ (∀ i f, ∃ m, (fun (_ : Nat) (_ : Frame) =>
        (Except.error "boom" : Except String Frame)) i f = .error m)) ∧
    (runEnhanceLoop (fun _ _ => Except.error "boom") none 2 [10, 20]).1 = [10, 20] :=
  ⟨⟨rfl, fun _ _ => ⟨"boom", rfl⟩⟩,
   (enhanceLoop_writes_all_frames (fun _ _ => Except.error "boom") none 2 [10, 20] rfl).2.2
     (fun _ _ => ⟨"boom", rfl⟩)⟩

/-- Counterexample to claim C1 as stated: with two readable frames and a
transform that raises only on frame 0, the loop still writes both frames and
the frame written at position 0 is the original, but `processed_frames` ends
at 1, not 2: the increment is skipped for the failed frame, so
`framesProcessed = N` does not hold. -/
theorem processed_frames_undercount_counterexample :
    (runEnhanceLoop
        (fun i f => if i = 0 then Except.error "boom" else Except.ok f)
        none 2 [10, 20]).2 = 1 ∧
    (runEnhanceLoop
        (fun i f => if i = 0 then Except.error "boom" else Except.ok f)
        none 2 [10, 20]).1 = [10, 20] ∧
    (1 : Nat) ≠ 2 := by
  refine ⟨rfl, rfl, by decide⟩

/-- Claim C1 amended: if the transform raises exactly on frame `k` (and
succeeds, with arbitrary results `g`, on every other frame), the loop still
completes, writes all `N` frames, and the frame written at position `k` is
the original frame read at position `k` — but the final `processed_frames`
value is `N - 1`, because the counter increment sits at the end of the
per-frame `try` block and is skipped for the failed frame. -/
theorem enhanceLoop_single_transform_failure (stream : List Frame) (k : Nat)
    (g : Nat → Frame → Frame) (msg : String) (hk : k < stream.length) :
    (runEnhanceLoop (fun i f => if i = k then Except.error msg else Except.ok (g i f))
        none stream.length stream).1.length = stream.length ∧
    (runEnhanceLoop (fun i f => if i = k then Except.error msg else Except.ok (g i f))
        none stream.length stream).1[k]? = stream[k]? ∧
    (runEnhanceLoop (fun i f => if i = k then Except.error msg else Except.ok (g i f))
        none stream.length stream).2 = stream.length - 1 := by
  unfold runEnhanceLoop
  rw [enhanceLoop_spec]
  refine ⟨by simp, ?_, ?_⟩
  · rw [List.getElem?_map, List.getElem?_enumFrom, Option.map_map,
      List.getElem?_eq_getElem hk]
    simp [processFrame]
  · have hfun : ((stream.enumFrom 0).map fun p =>
        if (processFrame ((fun i f => if i = k then Except.error msg else Except.ok (g i f)) p.1)
            none p.2).2 then (1 : Nat) else 0) =
        ((stream.enumFrom 0).map fun p => if p.1 = k then (0 : Nat) else 1) := by
      apply List.map_congr_left
      intro p _
      by_cases h : p.1 = k <;> simp [processFrame, h]
    have hcomp : (fun p : Nat × Frame => if p.1 = k then (0 : Nat) else 1) =
        (fun i => if i = k then (0 : Nat) else 1) ∘ Prod.fst := rfl
    rw [hfun, hcomp, ← List.map_map, List.enumFrom_map_fst, ← List.range_eq_range']
    exact sum_map_ite_ne k stream.length hk

/-- Witness for `enhanceLoop_single_transform_failure` at a concrete
three-frame video failing on frame 1. -/
theorem enhanceLoop_single_transform_failure_witness :
    (1 < [10, 20, 30].length) ∧
    (runEnhanceLoop (fun i f => if i = 1 then Except.error "boom" else Except.ok (f + 1))
        none [10, 20, 30].length [10, 20, 30]).1[1]? = [10, 20, 30][1]? ∧
    (runEnhanceLoop (fun i f => if i = 1 then Except.error "boom" else Except.ok (f + 1))
        none [10, 20, 30].length [10, 20, 30]).2 = [10, 20, 30].length - 1 :=
  ⟨by decide,
   (enhanceLoop_single_transform_failure [10, 20, 30] 1 (fun _ f => f + 1) "boom"
      (by decide)).2.1,
   (enhanceLoop_single_transform_failure [10, 20, 30] 1 (fun _ f => f + 1) "boom"
      (by decide)).2.2⟩

/-- Counterexample to claim C3 as stated: transform succeeds (producing frame
1 from frame 0), identity-selection raises, and the frame written for the
iteration is 0 — the ORIGINAL frame, not the transformed frame 1.  The single
per-frame `except` clause substitutes `frame`, the original, whatever step
raised. -/
theorem faceid_failure_writes_original_counterexample :
    (fun f => (Except.ok (f + 1) : Except String Frame)) 0 = Except.ok 1 ∧
    processFrame (fun f => Except.ok (f + 1))
      (some fun _ _ _ => Except.error "sel fail") 0 = (0, false) ∧
    (0 : Frame) ≠ 1 := by
  refine ⟨rfl, rfl, by decide⟩

/-- Claim C3 amended: when identity-selection is enabled and the transform
succeeded, a failure of the identity-selection step is caught inside the loop
(it does not propagate), but the frame written for that iteration is the
ORIGINAL frame, not the transformed one, and the iteration is not counted in
`processed_frames`. -/
theorem processFrame_faceid_failure (enhance1 : Frame → Except String Frame)
    (sel : FaceIdFn) (frame e : Frame) (m : String)
    (henh : enhance1 frame = .ok e) (hsel : sel frame e frame = .error m) :
    processFrame enhance1 (some sel) frame = (frame, false) := by
  simp [processFrame, henh, hsel]

/-- Witness for `processFrame_faceid_failure` at a concrete frame. -/
theorem processFrame_faceid_failure_witness :
    ((fun f => (Except.ok (f + 1) : Except String Frame)) 0 = Except.ok 1 ∧
      (fun (_ _ _ : Frame) => (Except.error "sel" : Except String Frame)) 0 1 0 =
        Except.error "sel") ∧
    processFrame (fun f => Except.ok (f + 1)) (some fun _ _ _ => Except.error "sel") 0 =
      (0, false) :=
  ⟨⟨rfl, rfl⟩,
   processFrame_faceid_failure (fun f => Except.ok (f + 1))
     (fun _ _ _ => Except.error "sel") 0 1 "sel" rfl rfl⟩

/-- Outcome of `cv2.VideoCapture(video_path)` as observed by
`get_video_details` (`inference_face_enhancer.py` lines 44-51): whether the
capture opened, and the properties `video.get` reports.  `fps` is a double in
cv2, modelled as a rational; the dimension and count properties are truncated
to `int` by the source, modelled as integers. -/
structure VideoInfo where
  opened : Bool
  fps : Rat
  width : Int
  height : Int
  frame_count : Int

/-- `get_video_details` (`inference_face_enhancer.py` lines 41-62).  Returns
the probe outcome together with the number of `video.release()` calls made
before the function returns or raises.  The source calls `release` once,
after reading the properties and before the parameter validity check; on the
not-opened path it raises `IOError` (re-raised by the catch-all `except`)
without ever calling `release`. -/
def get_video_details (v : VideoInfo) : Except String (Rat × Int × Int × Int) × Nat :=
  if !v.opened then (.error "cannot open video", 0)
  else if v.fps ≤ 0 ∨ v.width ≤ 0 ∨ v.height ≤ 0 then (.error "invalid video parameters", 1)
  else (.ok (v.fps, v.width, v.height, v.frame_count), 1)

/-- Counterexample to claim C9 as stated: when the source fails to open, the
probe raises and the release count is 0 — the handle is not released on that
outcome. -/
theorem probe_no_release_on_open_failure :
    (get_video_details (VideoInfo.mk false 30 640 480 10)).2 = 0 ∧
    (get_video_details (VideoInfo.mk false 30 640 480 10)).1 =
      Except.error "cannot open video" ∧
    (0 : Nat) ≠ 1 :=
  ⟨rfl, rfl, by decide⟩

/-- Claim C9 amended: on every outcome in which the source opens — success or
the invalid-parameter failure — the handle is released exactly once before
the probe returns or raises; on failure to open, the probe raises without
calling release. -/
theorem probe_releases_when_opened (v : VideoInfo) (h : v.opened = true) :
    (get_video_details v).2 = 1 := by
  unfold get_video_details
  rw [h]
  simp only [Bool.not_true, Bool.false_eq_true, if_false]
  split <;> rfl

/-- Witness for `probe_releases_when_opened` on a concrete opened video. -/
theorem probe_releases_when_opened_witness :
    (VideoInfo.mk true 30 640 480 10).opened = true ∧
    (get_video_details (VideoInfo.mk true 30 640 480 10)).2 = 1 :=
  ⟨rfl, probe_releases_when_opened (VideoInfo.mk true 30 640 480 10) rfl⟩

/-- A filesystem snapshot: an association of paths to byte contents.  Lookup
finds the most recent write (head of the list). -/
abbrev FS := List (String × List Nat)

/-- `shutil.copy2(src, dst)` (`inference_face_enhancer.py` lines 203-204):
reads the bytes at `src` and writes them verbatim to `dst`; raises if the
source is missing. -/
def copy2 (fs : FS) (src dst : String) : Except String FS :=
  match fs.lookup src with
  | none => .error "copy source missing"
  | some c => .ok ((dst, c) :: fs)

/-- The remux tail of `main` (`inference_face_enhancer.py` lines 198-212):

    result = subprocess.run(ffmpeg_cmd, ...)
    if result.returncode != 0:
        shutil.copy2(temp_video_file, args.outfile)
    if not os.path.exists(args.outfile):
        raise FileNotFoundError(...)
    ...
    return True

`retcode` is ffmpeg's exit code and `fsAfter` the filesystem after the
ffmpeg invocation (ffmpeg may or may not have produced `outfile`).  An
`Except.ok` result corresponds to `main` continuing to `return True`; an
`Except.error` corresponds to a raise that the outer handler turns into
`return False`. -/
def remuxFinalize (retcode : Int) (fsAfter : FS) (tempVideo outfile : String) :
    Except String FS :=
  if retcode ≠ 0 then
    match copy2 fsAfter tempVideo outfile with
    | .error e => .error e
    | .ok fs1 => if (fs1.lookup outfile).isSome then .ok fs1 else .error "output missing"
  else
    if (fsAfter.lookup outfile).isSome then .ok fsAfter else .error "output missing"

/-- Claim C4: when ffmpeg exits non-zero and the silent intermediate video
exists with (non-empty) content `c`, the fallback copies it verbatim to the
output path: the run succeeds (the job does not fail solely because remux
failed) and the output file exists with content byte-identical to the silent
intermediate, hence non-empty. -/
theorem remux_fallback_copies_intermediate (retcode : Int) (fsAfter : FS)
    (tempVideo outfile : String) (c : List Nat)
    (hret : retcode ≠ 0) (htemp : fsAfter.lookup tempVideo = some c) (hc : c ≠ []) :
    remuxFinalize retcode fsAfter tempVideo outfile = .ok ((outfile, c) :: fsAfter) ∧
    ((outfile, c) :: fsAfter).lookup outfile = some c ∧ c ≠ [] := by
  refine ⟨?_, ?_, hc⟩
  · unfold remuxFinalize copy2
    rw [if_pos hret, htemp]
    simp [List.lookup]
  · simp [List.lookup]

/-- Witness for `remux_fallback_copies_intermediate` at a concrete failing
remux over a one-file filesystem. -/
theorem remux_fallback_copies_intermediate_witness :
    ((1 : Int) ≠ 0 ∧
      ([("/app/temp/enhanced.avi", [7, 7])] : FS).lookup "/app/temp/enhanced.avi" =
        some [7, 7] ∧
      ([7, 7] : List Nat) ≠ []) ∧
    remuxFinalize 1 [("/app/temp/enhanced.avi", [7, 7])] "/app/temp/enhanced.avi"
        "/app/outputs/out.mp4" =
      .ok [("/app/outputs/out.mp4", [7, 7]), ("/app/temp/enhanced.avi", [7, 7])] :=
  ⟨⟨by decide, by simp [List.lookup], by decide⟩,
   (remux_fallback_copies_intermediate 1 [("/app/temp/enhanced.avi", [7, 7])]
      "/app/temp/enhanced.avi" "/app/outputs/out.mp4" [7, 7] (by decide)
      (by simp [List.lookup]) (by decide)).1⟩

/-- The standard base64 alphabet, as used by `base64.b64encode`
(`rp_handler.py` line 250). -/
def b64chars : List Char :=
  "ABCDEFGHIJKLMNOPQRSTUVWXYZabcdefghijklmnopqrstuvwxyz0123456789+/".toList

/-- Character of the base64 alphabet at a 6-bit index. -/
def b64char (n : Nat) : Char := b64chars.getD n 'A'

/-- `base64.b64encode` over a byte list (`rp_handler.py` line 250): 3-byte
groups become 4 alphabet characters, with `=` padding for a 1- or 2-byte
tail. -/
def b64encode : List Nat → List Char
  | [] => []
  | [a] => [b64char (a / 4), b64char (a % 4 * 16), '=', '=']
  | [a, b] => [b64char (a / 4), b64char (a % 4 * 16 + b / 16), b64char (b % 16 * 4), '=']
  | a :: b :: c :: rest =>
    b64char (a / 4) :: b64char (a % 4 * 16 + b / 16) :: b64char (b % 16 * 4 + c / 64) ::
      b64char (c % 64) :: b64encode rest

/-- `MAX_FILE_SIZE = 500 * 1024 * 1024` (`rp_handler.py` line 23). -/
def MAX_FILE_SIZE : Nat := 500 * 1024 * 1024

/-- The 50 MiB base64 inline limit (`rp_handler.py` line 248). -/
def INLINE_LIMIT : Nat := 50 * 1024 * 1024

/-- Outcome of the `requests.head` call in `validate_video_url`
(`rp_handler.py` line 37): HTTP status, the parsed `content-length` header if
the response carries one, and the `content-type` header.  The content type
only triggers a warning in the source (lines 50-52), never a rejection, so it
does not influence the modelled outcome. -/
structure HeadResponse where
  status_code : Int
  content_length : Option Nat
  content_type : Option String

/-- Structured rendering of the message strings `validate_video_url` builds. -/
inductive ValMsg
  | requestFailed (msg : String)
  | badStatus (code : Int)
  | headTooLarge (size : Nat)
  | urlOk
deriving DecidableEq

/-- `validate_video_url` (`rp_handler.py` lines 31-61).  The argument is the
outcome of the HEAD request: `Except.error` when `requests.head` raises
(timeout or request error), otherwise the response.  Returns
`(is_valid, message)`.  The size check runs only when a `content-length`
header is present. -/
def validate_video_url (head : Except String HeadResponse) : Bool × ValMsg :=
  match head with
  | .error e => (false, .requestFailed e)
  | .ok r =>
    if r.status_code ≠ 200 then (false, .badStatus r.status_code)
    else
      match r.content_length with
      | some n => if n > MAX_FILE_SIZE then (false, .headTooLarge n) else (true, .urlOk)
      | none => (true, .urlOk)

/-- `download_video` (`rp_handler.py` lines 63-96).  The argument is the
outcome of the streaming GET: `Except.error` when the request raises,
otherwise the full body.  The source writes every received chunk to the
output path with no size check, then fails only if the written file is empty.
Returns (success flag, bytes written to the output path). -/
def download_video (body : Except String (List Nat)) : Bool × List Nat :=
  match body with
  | .error _ => (false, [])
  | .ok bytes => if bytes.length = 0 then (false, bytes) else (true, bytes)

/-- A job request (`rp_handler.py` lines 192-202): the fields read from
`job["input"]`, each absent when the key is missing. -/
structure JobInput where
  video_url : Option String
  enhancer : Option String
  use_faceid : Option Bool
  enhancer_w : Option Rat

/-- External effects the handler performs, in program order: the HEAD
request, the two `tempfile.NamedTemporaryFile` allocations (which may raise),
the streaming GET body, the `run_face_enhancement` outcome (that function
catches everything and returns a `(success, message)` pair — lines 98-171),
and the read of the produced output file in step 3 (getsize/open may raise). -/
structure Oracle where
  headResp : Except String HeadResponse
  mkTempInput : Except String String
  mkTempOutput : Except String String
  downloadBody : Except String (List Nat)
  enhanceOutcome : Bool × String
  outputContent : Except String (List Nat)

/-- State the handler accumulates along the way: the `temp_files` list
(`rp_handler.py` lines 188, 222, 226) and whether the download and the
enhancement step were started. -/
structure TraceState where
  tempFiles : List String
  downloadStarted : Bool
  enhancementStarted : Bool
deriving DecidableEq

/-- `valid_enhancers` (`rp_handler.py` line 205). -/
def valid_enhancers : List String :=
  ["GFPGAN", "Codeformer", "GPEN", "RealESRGAN", "Restoreformer", "Restoreformer32",
   "Restoreformer16"]

/-- Structured rendering of the strings stored under the `"error"` key of the
handler's failure dictionaries; each constructor keeps the data the source
interpolates into the message (the invalid-enhancer message lists the valid
options, line 207). -/
inductive ErrVal
  | missingVideoUrl
  | invalidEnhancer (given : String) (valid : List String)
  | invalidWeight
  | invalidUrl (detail : ValMsg)
  | downloadFailed
  | enhanceFailed (msg : String)
  | outputReadFailed (msg : String)
  | resultTooLarge
  | serverError (msg : String)
deriving DecidableEq

/-- The `"output"` sub-dictionary of a success result
(`rp_handler.py` lines 255-261). -/
structure OutputPayload where
  video_base64 : List Char
  file_size : Nat
  enhancer_used : String
  faceid_used : Bool
  enhancer_weight : Rat
deriving DecidableEq

/-- The dictionary the handler returns: optional `"status"`, `"message"`,
`"output"`, `"error"` and top-level `"file_size"` keys (the too-large failure
at lines 271-274 carries `file_size` next to `error`). -/
structure Response where
  status : Option String
  message : Option String
  output : Option OutputPayload
  error : Option ErrVal
  file_size : Option Nat
deriving DecidableEq

/-- A failure dictionary `{"error": e}`. -/
def errResp (e : ErrVal) : Response := ⟨none, none, none, some e, none⟩

/-- The too-large failure dictionary `{"error": ..., "file_size": size}`
(`rp_handler.py` lines 271-274). -/
def tooLargeResp (size : Nat) : Response := ⟨none, none, none, some .resultTooLarge, some size⟩

/-- A success dictionary (`rp_handler.py` lines 252-262). -/
def successResp (p : OutputPayload) : Response :=
  ⟨some "success", some "enhancement successful", some p, none, none⟩

/-- The `try` body of `handler` (`rp_handler.py` lines 190-283).  An
`Except.error` in the first component is an exception escaping the body (to
be caught by the outer `except` at line 280); `Except.ok` is an ordinary
`return`.  The second component is the state at the moment the body exits,
whichever way.  Mirrors the source statement by statement: the missing/empty
`video_url` check (`if not video_url`, empty string being falsy), the
defaulted optional parameters, the enhancer and weight validation, URL
validation, temp-file creation, download, enhancement, and packaging. -/
def handlerBody (inp : JobInput) (o : Oracle) : Except String Response × TraceState :=
  match inp.video_url with
  | none => (.ok (errResp .missingVideoUrl), ⟨[], false, false⟩)
  | some url =>
    if url = "" then (.ok (errResp .missingVideoUrl), ⟨[], false, false⟩)
    else
      if inp.enhancer.getD "GFPGAN" ∈ valid_enhancers then
        if 0 ≤ inp.enhancer_w.getD (1 / 2) ∧ inp.enhancer_w.getD (1 / 2) ≤ 1 then
          match validate_video_url o.headResp with
          | (false, vmsg) => (.ok (errResp (.invalidUrl vmsg)), ⟨[], false, false⟩)
          | (true, _) =>
            match o.mkTempInput with
            | .error e => (.error e, ⟨[], false, false⟩)
            | .ok inPath =>
              match o.mkTempOutput with
              | .error e => (.error e, ⟨[inPath], false, false⟩)
              | .ok outPath =>
                match download_video o.downloadBody with
                | (false, _) => (.ok (errResp .downloadFailed), ⟨[inPath, outPath], true, false⟩)
                | (true, _) =>
                  match o.enhanceOutcome with
                  | (false, msg) =>
                    (.ok (errResp (.enhanceFailed msg)), ⟨[inPath, outPath], true, true⟩)
                  | (true, _) =>
                    match o.outputContent with
                    | .error e =>
                      (.ok (errResp (.outputReadFailed e)), ⟨[inPath, outPath], true, true⟩)
                    | .ok content =>
                      if content.length ≤ INLINE_LIMIT then
                        (.ok (successResp
                            ⟨b64encode content, content.length, inp.enhancer.getD "GFPGAN",
                             inp.use_faceid.getD true, inp.enhancer_w.getD (1 / 2)⟩),
                         ⟨[inPath, outPath], true, true⟩)
                      else
                        (.ok (tooLargeResp content.length), ⟨[inPath, outPath], true, true⟩)
        else (.ok (errResp .invalidWeight), ⟨[], false, false⟩)
      else
        (.ok (errResp (.invalidEnhancer (inp.enhancer.getD "GFPGAN") valid_enhancers)),
         ⟨[], false, false⟩)

/-- The outer `except Exception` of `handler` (`rp_handler.py` lines
280-283): an exception escaping the body becomes a `{"error": "server
error ..."}` result. -/
def respOf (r : Except String Response) : Response :=
  match r with
  | .ok resp => resp
  | .error e => errResp (.serverError e)

/-- `cleanup_files` (`rp_handler.py` lines 173-181): iterates over the given
paths in order; for each it attempts the deletion inside its own
`try/except`, so a failing deletion (`deleteOk p = false`) is logged and the
loop continues.  The function is total: it never raises.  Returns the
per-path (path, deletion succeeded) attempt list. -/
def cleanup_files (deleteOk : String → Bool) (paths : List String) :
    List (String × Bool) :=
  paths.map fun p => (p, deleteOk p)

/-- `handler` (`rp_handler.py` lines 183-287): runs the body, converts an
escaped exception into a failure dictionary, and in the `finally` block runs
`cleanup_files` over the accumulated `temp_files`.  Returns (result
dictionary, exit state of the body, cleanup attempts). -/
def handler (inp : JobInput) (o : Oracle) (deleteOk : String → Bool) :
    Response × TraceState × List (String × Bool) :=
  (respOf (handlerBody inp o).1, (handlerBody inp o).2,
   cleanup_files deleteOk (handlerBody inp o).2.tempFiles)

/-- Every exit of the handler body is one of: an ordinary return of a failure
dictionary, of the too-large failure dictionary, of a success dictionary, or
an escaped exception. -/
theorem handlerBody_shapes (inp : JobInput) (o : Oracle) :
    (∃ e, (handlerBody inp o).1 = .ok (errResp e)) ∨
    (∃ n, (handlerBody inp o).1 = .ok (tooLargeResp n)) ∨
    (∃ p, (handlerBody inp o).1 = .ok (successResp p)) ∨
    (∃ s, (handlerBody inp o).1 = .error s) := by
  unfold handlerBody
  repeat' split
  all_goals first
    | exact Or.inl ⟨_, rfl⟩
    | exact Or.inr (Or.inl ⟨_, rfl⟩)
    | exact Or.inr (Or.inr (Or.inl ⟨_, rfl⟩))
    | exact Or.inr (Or.inr (Or.inr ⟨_, rfl⟩))

/-- The returned dictionary is a failure payload: it has an `"error"` entry
and neither a `"status"` nor an `"output"` entry. -/
def isFailureResponse (r : Response) : Prop :=
  r.error.isSome = true ∧ r.status = none ∧ r.output = none

/-- The returned dictionary is a success payload: no `"error"` entry,
`"status"` is `"success"`, and an `"output"` entry is present. -/
def isSuccessResponse (r : Response) : Prop :=
  r.error = none ∧ r.status = some "success" ∧ r.output.isSome = true

/-- Claim C5: for every job request and every behaviour of the external
effects — including any of the fallible steps raising — the handler returns
exactly one of the two result variants: a success payload or a failure
payload, never both and never neither; no exception escapes the handler
(the embedding of the handler is a total function whose body's escaped
exceptions are all converted by the outer catch-all). -/
theorem handler_returns_exactly_one_variant (inp : JobInput) (o : Oracle)
    (d : String → Bool) :
    (isSuccessResponse (handler inp o d).1 ∧ ¬ isFailureResponse (handler inp o d).1) ∨
    (isFailureResponse (handler inp o d).1 ∧ ¬ isSuccessResponse (handler inp o d).1) := by
  rcases handlerBody_shapes inp o with ⟨e, he⟩ | ⟨n, hn⟩ | ⟨p, hp⟩ | ⟨s, hs⟩
  · simp [handler, respOf, he, errResp, isFailureResponse, isSuccessResponse]
  · simp [handler, respOf, hn, tooLargeResp, isFailureResponse, isSuccessResponse]
  · simp [handler, respOf, hp, successResp, isFailureResponse, isSuccessResponse]
  · simp [handler, respOf, hs, errResp, isFailureResponse, isSuccessResponse]

/-- Claim C8: whatever the job request and however the external effects
behave (any exit path: success, ordinary failure, or an exception raised
mid-body), the handler's cleanup attempts deletion of exactly the paths
recorded in `temp_files`, one attempt per recorded path in order; and the
deletion outcomes (`d` vs `d'`) have no influence on the returned result or
on the recorded state — a failing deletion is logged, never raised, and never
masks the primary result. -/
theorem cleanup_attempts_every_tracked_path (inp : JobInput) (o : Oracle)
    (d d' : String → Bool) :
    ((handler inp o d).2.2).map Prod.fst = (handler inp o d).2.1.tempFiles ∧
    (handler inp o d).1 = (handler inp o d').1 ∧
    (handler inp o d).2.1 = (handler inp o d').2.1 := by
  refine ⟨?_, rfl, rfl⟩
  have h1 : (handler inp o d).2.2 =
      List.map (fun p => (p, d p)) (handlerBody inp o).2.tempFiles := rfl
  have h2 : (handler inp o d).2.1 = (handlerBody inp o).2 := rfl
  rw [h1, h2, List.map_map]
  exact List.map_id _

/-- Claim C6: a job request that fails validation — missing (or empty)
`video_url`, an enhancer outside the valid set, or an `enhancer_w` outside
[0,1] — produces a failure result while the temp-file list is still empty,
no download has started, no enhancement has started, and cleanup consequently
attempts nothing; moreover an unknown enhancer is rejected with the list of
valid options attached to the error. -/
theorem handler_validation_short_circuits (inp : JobInput) (o : Oracle)
    (d : String → Bool)
    (h : inp.video_url = none ∨ inp.video_url = some "" ∨
         inp.enhancer.getD "GFPGAN" ∉ valid_enhancers ∨
         ¬ (0 ≤ inp.enhancer_w.getD (1 / 2) ∧ inp.enhancer_w.getD (1 / 2) ≤ 1)) :
    (handler inp o d).1.error.isSome = true ∧
    (handler inp o d).2.1 = ⟨[], false, false⟩ ∧
    (handler inp o d).2.2 = [] ∧
    (∀ url, inp.video_url = some url → url ≠ "" →
      inp.enhancer.getD "GFPGAN" ∉ valid_enhancers →
      (handler inp o d).1 =
        errResp (.invalidEnhancer (inp.enhancer.getD "GFPGAN") valid_enhancers)) := by
  rcases hvu : inp.video_url with _ | url
  · have hred : handlerBody inp o =
        (.ok (errResp .missingVideoUrl), ⟨[], false, false⟩) := by
      simp only [handlerBody, hvu]
    refine ⟨by simp [handler, hred, respOf, errResp], by simp [handler, hred],
      by simp [handler, hred, cleanup_files], ?_⟩
    intro url' h1 _ _
    exact absurd h1 (by simp)
  · by_cases hemp : url = ""
    · have hred : handlerBody inp o =
          (.ok (errResp .missingVideoUrl), ⟨[], false, false⟩) := by
        simp only [handlerBody, hvu]
        rw [if_pos hemp]
      refine ⟨by simp [handler, hred, respOf, errResp], by simp [handler, hred],
        by simp [handler, hred, cleanup_files], ?_⟩
      intro url' h1 hne _
      have heq : url = url' := Option.some.inj h1
      subst heq
      exact absurd hemp hne
    · by_cases hmem : inp.enhancer.getD "GFPGAN" ∈ valid_enhancers
      · have hw : ¬ (0 ≤ inp.enhancer_w.getD (1 / 2) ∧ inp.enhancer_w.getD (1 / 2) ≤ 1) := by
          rcases h with h | h | h | h
          · rw [hvu] at h; exact absurd h (by simp)
          · rw [hvu] at h
            exact absurd (Option.some.inj h) hemp
          · exact absurd hmem h
          · exact h
        have hred : handlerBody inp o =
            (.ok (errResp .invalidWeight), ⟨[], false, false⟩) := by
          simp only [handlerBody, hvu]
          rw [if_neg hemp, if_pos hmem, if_neg hw]
        refine ⟨by simp [handler, hred, respOf, errResp], by simp [handler, hred],
          by simp [handler, hred, cleanup_files], ?_⟩
        intro url' _ _ h3
        exact absurd hmem h3
      · have hred : handlerBody inp o =
            (.ok (errResp (.invalidEnhancer (inp.enhancer.getD "GFPGAN") valid_enhancers)),
             ⟨[], false, false⟩) := by
          simp only [handlerBody, hvu]
          rw [if_neg hemp, if_neg hmem]
        refine ⟨by simp [handler, hred, respOf, errResp], by simp [handler, hred],
          by simp [handler, hred, cleanup_files], ?_⟩
        intro url' _ _ _
        simp [handler, hred, respOf]

/-- Witness for `handler_validation_short_circuits` at a concrete request
missing `video_url`. -/
theorem handler_validation_short_circuits_witness :
    ((JobInput.mk none none none none).video_url = none) ∧
    (handler (JobInput.mk none none none none)
        (Oracle.mk (.error "net") (.error "fs") (.error "fs") (.error "net")
          (false, "no") (.error "fs")) (fun _ => false)).1.error.isSome = true ∧
    (handler (JobInput.mk none none none none)
        (Oracle.mk (.error "net") (.error "fs") (.error "fs") (.error "net")
          (false, "no") (.error "fs")) (fun _ => false)).2.2 = [] :=
  ⟨rfl,
   (handler_validation_short_circuits (JobInput.mk none none none none)
      (Oracle.mk (.error "net") (.error "fs") (.error "fs") (.error "net")
        (false, "no") (.error "fs")) (fun _ => false) (Or.inl rfl)).1,
   (handler_validation_short_circuits (JobInput.mk none none none none)
      (Oracle.mk (.error "net") (.error "fs") (.error "fs") (.error "net")
        (false, "no") (.error "fs")) (fun _ => false) (Or.inl rfl)).2.2.1⟩

/-- Claim C7: on a run that reaches the packaging step (validation, URL
check, temp files, download and enhancement all succeeded, and the produced
artifact was read back as `content`), an artifact whose byte size is at or
under the 50 MiB inline limit is returned as a success payload carrying the
base64-encoded bytes and the exact size, and an artifact even one byte over
the limit produces the explicit too-large failure dictionary carrying the
size — never a truncated payload. -/
theorem handler_inline_threshold (inp : JobInput) (o : Oracle) (d : String → Bool)
    (url inPath outPath : String) (content : List Nat) (msg1 : String)
    (hurl : inp.video_url = some url) (hne : url ≠ "")
    (henh : inp.enhancer.getD "GFPGAN" ∈ valid_enhancers)
    (hw : 0 ≤ inp.enhancer_w.getD (1 / 2) ∧ inp.enhancer_w.getD (1 / 2) ≤ 1)
    (hvv : (validate_video_url o.headResp).1 = true)
    (hti : o.mkTempInput = .ok inPath) (hto : o.mkTempOutput = .ok outPath)
    (hdl : (download_video o.downloadBody).1 = true)
    (hen : o.enhanceOutcome = (true, msg1))
    (hoc : o.outputContent = .ok content) :
    (content.length ≤ INLINE_LIMIT →
      (handler inp o d).1 = successResp
        ⟨b64encode content, content.length, inp.enhancer.getD "GFPGAN",
         inp.use_faceid.getD true, inp.enhancer_w.getD (1 / 2)⟩) ∧
    (INLINE_LIMIT < content.length →
      (handler inp o d).1 = tooLargeResp content.length) := by
  rcases hval : validate_video_url o.headResp with ⟨vb, vm⟩
  rw [hval] at hvv
  subst hvv
  rcases hdlv : download_video o.downloadBody with ⟨db, dbytes⟩
  rw [hdlv] at hdl
  subst hdl
  have hw' : 0 ≤ inp.enhancer_w.getD 2⁻¹ ∧ inp.enhancer_w.getD 2⁻¹ ≤ 1 := by
    simpa [one_div] using hw
  constructor
  · intro hlen
    simp [handler, handlerBody, respOf, hurl, hne, henh, hw', hval, hti, hto, hdlv,
      hen, hoc, hlen]
  · intro hlen
    have hnot : ¬ content.length ≤ INLINE_LIMIT := Nat.not_le.mpr hlen
    simp [handler, handlerBody, respOf, hurl, hne, henh, hw', hval, hti, hto, hdlv,
      hen, hoc, hnot]

/-- Witness for `handler_inline_threshold` at the exact boundary (an artifact
of exactly 50 MiB succeeds inline) and one byte over it (the explicit
too-large failure). -/
theorem handler_inline_threshold_witness :
    ((JobInput.mk (some "http://h/v.mp4") none none none).video_url =
        some "http://h/v.mp4" ∧
      "http://h/v.mp4" ≠ "" ∧
      (JobInput.mk (some "http://h/v.mp4") none none none).enhancer.getD "GFPGAN" ∈
        valid_enhancers ∧
      (validate_video_url (.ok (HeadResponse.mk 200 none none))).1 = true ∧
      (download_video (.ok [1])).1 = true ∧
      (List.replicate INLINE_LIMIT 0).length ≤ INLINE_LIMIT ∧
      INLINE_LIMIT < (List.replicate (INLINE_LIMIT + 1) 0).length) ∧
    (handler (JobInput.mk (some "http://h/v.mp4") none none none)
        (Oracle.mk (.ok (HeadResponse.mk 200 none none)) (.ok "/tmp/in.mp4")
          (.ok "/tmp/out.mp4") (.ok [1]) (true, "ok")
          (.ok (List.replicate INLINE_LIMIT 0))) (fun _ => true)).1 =
      successResp
        ⟨b64encode (List.replicate INLINE_LIMIT 0), (List.replicate INLINE_LIMIT 0).length,
         (JobInput.mk (some "http://h/v.mp4") none none none).enhancer.getD "GFPGAN",
         (JobInput.mk (some "http://h/v.mp4") none none none).use_faceid.getD true,
         (JobInput.mk (some "http://h/v.mp4") none none none).enhancer_w.getD (1 / 2)⟩ ∧
    (handler (JobInput.mk (some "http://h/v.mp4") none none none)
        (Oracle.mk (.ok (HeadResponse.mk 200 none none)) (.ok "/tmp/in.mp4")
          (.ok "/tmp/out.mp4") (.ok [1]) (true, "ok")
          (.ok (List.replicate (INLINE_LIMIT + 1) 0))) (fun _ => true)).1 =
      tooLargeResp (List.replicate (INLINE_LIMIT + 1) 0).length :=
  ⟨⟨rfl, by decide, by decide, rfl, rfl, by rw [List.length_replicate],
    by rw [List.length_replicate]; omega⟩,
   (handler_inline_threshold (JobInput.mk (some "http://h/v.mp4") none none none)
      (Oracle.mk (.ok (HeadResponse.mk 200 none none)) (.ok "/tmp/in.mp4")
        (.ok "/tmp/out.mp4") (.ok [1]) (true, "ok")
        (.ok (List.replicate INLINE_LIMIT 0))) (fun _ => true)
      "http://h/v.mp4" "/tmp/in.mp4" "/tmp/out.mp4" (List.replicate INLINE_LIMIT 0) "ok"
      rfl (by decide) (by decide) (by norm_num) rfl rfl rfl rfl rfl rfl).1
     (by rw [List.length_replicate]),
   (handler_inline_threshold (JobInput.mk (some "http://h/v.mp4") none none none)
      (Oracle.mk (.ok (HeadResponse.mk 200 none none)) (.ok "/tmp/in.mp4")
        (.ok "/tmp/out.mp4") (.ok [1]) (true, "ok")
        (.ok (List.replicate (INLINE_LIMIT + 1) 0))) (fun _ => true)
      "http://h/v.mp4" "/tmp/in.mp4" "/tmp/out.mp4" (List.replicate (INLINE_LIMIT + 1) 0)
      "ok" rfl (by decide) (by decide) (by norm_num) rfl rfl rfl rfl rfl rfl).2
     (by rw [List.length_replicate]; omega)⟩

/-- Claim C10: the 500 MiB rejection lives only in the HEAD check: a HEAD
response with status 200 and no `content-length` header passes validation,
and the download step then streams the entire body to disk and reports
success whatever its size — here a body strictly larger than
`MAX_FILE_SIZE` — with no size check on the downloaded bytes. -/
theorem size_cap_skipped_without_content_length (hr : HeadResponse) (bytes : List Nat)
    (h200 : hr.status_code = 200) (hcl : hr.content_length = none)
    (hbig : MAX_FILE_SIZE < bytes.length) :
    validate_video_url (.ok hr) = (true, .urlOk) ∧
    download_video (.ok bytes) = (true, bytes) := by
  constructor
  · simp [validate_video_url, h200, hcl]
  · have hz : ¬ bytes.length = 0 := by omega
    simp [download_video, hz]

/-- Witness for `size_cap_skipped_without_content_length` at a concrete HEAD
response without `content-length` and a body one byte over the cap. -/
theorem size_cap_skipped_without_content_length_witness :
    ((HeadResponse.mk 200 none (some "video/mp4")).status_code = 200 ∧
      (HeadResponse.mk 200 none (some "video/mp4")).content_length = none ∧
      MAX_FILE_SIZE < (List.replicate (MAX_FILE_SIZE + 1) 7).length) ∧
    validate_video_url (.ok (HeadResponse.mk 200 none (some "video/mp4"))) =
      (true, .urlOk) ∧
    download_video (.ok (List.replicate (MAX_FILE_SIZE + 1) 7)) =
      (true, List.replicate (MAX_FILE_SIZE + 1) 7) :=
  ⟨⟨rfl, rfl, by rw [List.length_replicate]; omega⟩,
   (size_cap_skipped_without_content_length (HeadResponse.mk 200 none (some "video/mp4"))
      (List.replicate (MAX_FILE_SIZE + 1) 7) rfl rfl
      (by rw [List.length_replicate]; omega)).1,
   (size_cap_skipped_without_content_length (HeadResponse.mk 200 none (some "video/mp4"))
      (List.replicate (MAX_FILE_SIZE + 1) 7) rfl rfl
      (by rw [List.length_replicate]; omega)).2⟩

end FET
